import Mathlib

/-!
Verification development for a minimal retrieval-augmented-generation (RAG)
pipeline consisting of an offline index builder (build_db.py), an online
query script (rag_app.py) and a cleanup script (clean_db.py).

The Python sources are shallowly embedded below:

* pure computations (cosine-distance to similarity conversion, sentence
  filtering, prompt assembly, embedding-response normalization) become Lean
  functions over exact rationals, lists and characters;
* the external collaborators (the Ollama embedding provider, the Chroma
  persistent vector store, the generative chat service, the NLTK sentence
  tokenizer, stdin/argv) are parameters: oracles passed to the embedded
  entry points, with the provider's possible response shapes reified as an
  inductive type;
* the entry points (build_db.main, rag_app.main) become functions from their
  inputs and oracles to a final state, a trace of external calls performed,
  and printed output, with Python exceptions modelled by Except.
-/

namespace RAGCraft

/-- Embedding vectors: lists of exact rationals stand in for Python lists of
floats (the arithmetic the scripts perform on them is exact at the points the
spec mentions). -/
abbrev Vec := List ℚ

/-- Metadata dictionaries, as association lists of string keys and values
(build_db stores a string source and a numeric chunk index; rag_app only
passes metadata through, so values are kept abstract as strings/numbers). -/
abbrev Meta := List (String × String)

/-! ## Cosine-distance to similarity conversion (rag_app.retrieve, lines 93-105)

The source computes, for a raw distance d returned by the store:
  cosine_similarity = 1.0 - distance
  cosine_similarity = max(-1.0, min(1.0, cosine_similarity))
-/

/-- Embeds the similarity computation of rag_app.retrieve lines 98-101:
1 - d, clamped to the interval from -1 to 1. -/
def simOfDist (d : ℚ) : ℚ := max (-1) (min 1 (1 - d))

/-! ## Python str.strip, shared by build_db.read_dataset and rag_app.main -/

/-- Whitespace test used by strip (Python strips the usual ASCII whitespace;
Char.isWhitespace covers space, tab, newline and carriage return). -/
def pyWs (c : Char) : Bool := c.isWhitespace

/-- Embeds Python str.strip() on the character list: remove the longest
whitespace run from the front and from the back. -/
def stripChars (l : List Char) : List Char :=
  (l.dropWhile pyWs).rdropWhile pyWs

/-- Embeds Python str.strip() on strings. -/
def pyStrip (s : String) : String := ⟨stripChars s.data⟩

/-! ## Chunker (build_db.read_dataset, lines 28-38)

The source reads the corpus file, applies nltk.sent_tokenize to the whole
content and keeps `[s.strip() for s in sentences if s.strip()]`.  The
tokenizer is an external collaborator and is passed in as an oracle. -/

/-- Embeds build_db.read_dataset: tokenize the file content with the external
sentence tokenizer, then keep the strip of every sentence whose strip is
non-empty (the comprehension with an `if s.strip()` guard). -/
def read_dataset (tok : String → List String) (content : String) : List String :=
  (tok content).filterMap (fun s => if pyStrip s = "" then none else some (pyStrip s))

/-! ## Embedding provider responses (ollama.embed outcomes)

Both scripts call ollama.embed and then normalize the response by probing a
fixed sequence of shapes.  The inductive below reifies the outcomes the
Python code distinguishes:

* `raised`  : the call itself raised an exception;
* `dict`    : a dict; the three fields record whether the keys "embedding",
  "embeddings" and "data" are present (with list values of the expected item
  type).  An item of the "data" list is a dict that may or may not carry an
  "embedding" key, hence `Option Vec`;
* `listOfRecords` : a plain list of per-item dicts, each item possibly
  carrying an "embedding" key (only build_db's embed_batch recognizes this);
* `obj`     : an object probed with hasattr for attributes embedding /
  embeddings / data; attribute values are typed (the isinstance checks), and
  items of an object-shaped data list are records with an embedding field;
* `other`   : any response matching none of the recognized shapes. -/
inductive EmbedResp where
  | raised : EmbedResp
  | dict (embedding : Option Vec) (embeddings : Option (List Vec))
      (data : Option (List (Option Vec))) : EmbedResp
  | listOfRecords (items : List (Option Vec)) : EmbedResp
  | obj (embedding : Option Vec) (embeddings : Option (List Vec))
      (data : Option (List Vec)) : EmbedResp
  | other : EmbedResp
deriving DecidableEq

/-- Errors with which the embedded functions fail; Python raises and
re-raises plain exceptions here, so a single error token suffices. -/
abbrev PyExn := Unit

/-! ## Embedding Gateway, query side (rag_app.embed_query, lines 32-59)

Key order probed for a dict: "embedding", then "embeddings" (non-empty),
then "data" (non-empty, first item's "embedding" key or None); attribute
order probed for an object: embedding, embeddings (non-empty), data
(non-empty).  Anything else — including an exception from ollama.embed —
is printed and (re-)raised. -/

/-- Embeds rag_app.embed_query applied to the response the provider
produced for the query: returns the parsed vector, None (the dict "data"
shape whose first record lacks an "embedding" key), or raises. -/
def embed_query : EmbedResp → Except PyExn (Option Vec)
  | .raised => .error ()
  | .dict e es d =>
    match e with
    | some v => .ok (some v)
    | none =>
      match es with
      | some (v :: _) => .ok (some v)
      | _ =>
        match d with
        | some (item0 :: _) => .ok item0
        | _ => .error ()
  | .listOfRecords _ => .error ()
  | .obj e es d =>
    match e with
    | some v => .ok (some v)
    | none =>
      match es with
      | some (v :: _) => .ok (some v)
      | _ =>
        match d with
        | some (v :: _) => .ok (some v)
        | _ => .error ()
  | .other => .error ()

/-! ## Embedding Gateway, batch side (build_db.embed_batch, lines 55-87)

Key order probed for a dict: "embeddings" (returned as-is, no length
check), then "embedding" (wrapped in a singleton), then "data" (items
with an "embedding" key are kept, others silently dropped); then the plain
list-of-records shape (all items must carry "embedding", else it falls
through); then the object attributes embeddings / embedding / data.
Anything else — including an exception from ollama.embed — is printed and
(re-)raised. -/

/-- Embeds build_db.embed_batch applied to the provider's response for the
batch `texts`; the texts themselves are only forwarded to the provider
oracle, the normalization never consults their number. -/
def embed_batch (provider : List String → EmbedResp) (texts : List String) :
    Except PyExn (List Vec) :=
  match provider texts with
  | .raised => .error ()
  | .dict e es d =>
    match es with
    | some l => .ok l
    | none =>
      match e with
      | some v => .ok [v]
      | none =>
        match d with
        | some items => .ok (items.filterMap id)
        | none => .error ()
  | .listOfRecords items =>
    if items.all Option.isSome then .ok (items.filterMap id) else .error ()
  | .obj e es d =>
    match es with
    | some l => .ok l
    | none =>
      match e with
      | some v => .ok [v]
      | none =>
        match d with
        | some l => .ok l
        | none => .error ()
  | .other => .error ()

/-! ## Retriever (rag_app.retrieve, lines 61-108) -/

/-- The dictionary Chroma's collection.query returns, with per-query rows
of documents, distances and metadata (the scripts always send one query
embedding, so row 0 is the one consulted). -/
structure QueryResults where
  documents : List (List String)
  distances : List (List ℚ)
  metadatas : List (List Meta)

/-- Guarded element access used for distances and metadata rows:
`rows[0][i] if rows and len(rows) > 0 and len(rows[0]) > i else None`. -/
def rowGet (rows : List (List α)) (i : Nat) : Option α :=
  match rows with
  | [] => none
  | r :: _ => r.get? i

/-- One element of the list retrieve returns: the dict
with keys chunk, distance, similarity, metadata. -/
structure RetrievedItem where
  chunk : String
  distance : Option ℚ
  similarity : Option ℚ
  metadata : Meta
deriving DecidableEq

/-- Embeds the result-assembly loop of rag_app.retrieve (lines 82-107): if
the documents field is empty (falsy) no item is built; otherwise one item
per entry of row 0 of documents, with distance and metadata looked up by
guarded index, similarity None exactly when distance is None and the
clamped conversion of the distance otherwise, and metadata defaulting to
the empty dict. -/
def assembleRetrieved (res : QueryResults) : List RetrievedItem :=
  match res.documents with
  | [] => []
  | d0 :: _ =>
    (List.range d0.length).map (fun i =>
      { chunk := d0.getD i ""
        distance := rowGet res.distances i
        similarity := (rowGet res.distances i).map simOfDist
        metadata := (rowGet res.metadatas i).getD [] })

/-- Embeds rag_app.retrieve: embed the query (the provider's response for
it is `er`), return the empty list when the embedding came back as None,
propagate a raise, and otherwise query the store oracle and assemble the
items. -/
def retrieve (er : EmbedResp) (store : Vec → QueryResults) :
    Except PyExn (List RetrievedItem) :=
  match embed_query er with
  | .error e => .error e
  | .ok none => .ok []
  | .ok (some v) => .ok (assembleRetrieved (store v))

/-! ## Prompt Assembler (rag_app.build_instruction_prompt, lines 110-124) -/

/-- The fixed fallback sentence rag_app uses, both inside the instruction
prompt and as the direct answer on the empty-retrieval path. -/
def dontKnowSentinel : String := "I don't know based on the given context."

/-- Embeds the f-string f" - \x7bitem['chunk']\x7d": one bulleted context line. -/
def bulletLine (chunk : String) : String := " - " ++ chunk

/-- Join with the newline character, at the character-list level: the
embedding of Python's "\n".join. -/
def joinCh : List (List Char) → List Char
  | [] => []
  | [l] => l
  | l :: l' :: ls => l ++ '\n' :: joinCh (l' :: ls)

/-- Embeds context_lines = "\n".join([f" - \x7bitem['chunk']\x7d" for item in
retrieved_knowledge]). -/
def context_lines (retrieved : List RetrievedItem) : String :=
  ⟨joinCh (retrieved.map (fun item => (bulletLine item.chunk).data))⟩

/-- The literal text of the prompt before the interpolated context lines
(the f-string of rag_app lines 116-122 up to the interpolation point). -/
def promptHeader : String :=
  "You are a helpful chatbot.\nUse ONLY the following pieces of context to answer the question.\nIf the context does not contain the answer, reply with: \"I don't know based on the given context.\"\nDo NOT fabricate facts. You may summarize, combine pieces, or explain—but not invent.\n\nRetrieved Context:\n"

/-- Embeds rag_app.build_instruction_prompt: the fixed header, then the
joined bulleted context lines, then the closing newline of the f-string. -/
def build_instruction_prompt (retrieved : List RetrievedItem) : String :=
  promptHeader ++ context_lines retrieved ++ "\n"

/-- Splitting a character list at newline characters; the left inverse of
joinCh used to state what the assembled prompt contains line by line. -/
def splitCh : List Char → List (List Char)
  | [] => [[]]
  | c :: rest =>
    if c = '\n' then [] :: splitCh rest
    else
      match splitCh rest with
      | [] => [[c]]
      | h :: t => (c :: h) :: t

/-- The header of the instruction prompt, line by line. -/
def headerLinesData : List (List Char) :=
  ["You are a helpful chatbot.".data,
   "Use ONLY the following pieces of context to answer the question.".data,
   "If the context does not contain the answer, reply with: \"I don't know based on the given context.\"".data,
   "Do NOT fabricate facts. You may summarize, combine pieces, or explain—but not invent.".data,
   "".data,
   "Retrieved Context:".data]

/-! ## Query-time entry point (rag_app.main, lines 154-185)

External calls are recorded as actions; prints at main level are recorded
as output lines (the DEBUG prints inside helpers are not modelled). -/

/-- The external calls the two entry points can perform. -/
inductive Act where
  | storeOpen : Act
  | listCollections : Act
  | getOrCreateCollection : Act
  | rmtree : Act
  | readData : Act
  | embedCall (model : Option String) (numTexts : Nat) : Act
  | storeAdd (numDocs : Nat) : Act
  | embedQueryCall : Act
  | storeQuery : Act
  | buildPromptCall : Act
  | chatCall : Act
deriving DecidableEq

/-- Embeds rag_app.main.  Inputs: whether the persistence directory exists,
the raw line read from stdin, the provider's response for the query
embedding, the store oracle, and the outcome of the streaming chat call.
Returns the actions performed, the lines printed by main, and the final
outcome (an error is an uncaught Python exception). -/
def queryMain (dirExists : Bool) (rawQuery : String) (er : EmbedResp)
    (store : Vec → QueryResults) (chatRes : Except PyExn Unit) :
    List Act × List String × Except PyExn Unit :=
  if !dirExists then
    ([], ["Persistence directory 'chroma_db' not found.",
          "Run build_db.py first to create and persist the collection."], .ok ())
  else
    -- ensure_client_and_collection runs before the question is read
    let ensureActs : List Act := [.storeOpen, .listCollections, .getOrCreateCollection]
    let query := pyStrip rawQuery
    if query = "" then
      (ensureActs, ["Empty query, exiting."], .ok ())
    else
      let retrActs : List Act :=
        .embedQueryCall ::
          (match embed_query er with
           | .ok (some _) => [.storeQuery]
           | _ => [])
      match retrieve er store with
      | .error e => (ensureActs ++ retrActs, [], .error e)
      | .ok retrieved =>
        if retrieved = [] then
          (ensureActs ++ retrActs,
           ["No relevant documents found.", dontKnowSentinel], .ok ())
        else
          (ensureActs ++ retrActs ++ [.buildPromptCall, .chatCall],
           "Using retrieved knowledge..." ::
             retrieved.map (fun item => bulletLine item.chunk),
           chatRes)

/-! ## Configuration (build_db lines 13-15, rag_app lines 7-10)

Both scripts read the model identifiers with os.getenv, which returns None
when the variable is absent; neither script validates the result. -/

/-- Embeds os.getenv over the process environment, an association list. -/
def getenv (env : List (String × String)) (key : String) : Option String :=
  (env.find? (fun p => p.1 = key)).map Prod.snd

/-- Embeds the module-level constant EMBEDDING_MODEL = os.getenv("EMBEDDING_MODEL"). -/
def EMBEDDING_MODEL (env : List (String × String)) : Option String :=
  getenv env "EMBEDDING_MODEL"

/-- Embeds the module-level constant LANGUAGE_MODEL = os.getenv("LANGUAGE_MODEL"). -/
def LANGUAGE_MODEL (env : List (String × String)) : Option String :=
  getenv env "LANGUAGE_MODEL"

/-! ## Index Builder (build_db.main, lines 89-153) -/

/-- Embeds Python str.lower() on the character list (ASCII case folding,
which is all the comparisons with 's' and 'r' need). -/
def pyLower (s : String) : String := ⟨s.data.map Char.toLower⟩

/-- The observable state of the persistent location: whether the directory
exists and how many entries it holds, plus the collection's document count. -/
structure BuildSt where
  dirEntries : Option Nat
  docCount : Nat
deriving DecidableEq

/-- Embeds build_db.db_already_built: os.path.exists(PERSIST_DIR) and
len(os.listdir(PERSIST_DIR)) > 0. -/
def db_already_built (st : BuildSt) : Bool :=
  match st.dirEntries with
  | none => false
  | some n => decide (0 < n)

/-- Models the external persistent client (PersistentClient plus
get_or_create_collection): opening creates the directory and writes index
files there, so the location becomes non-empty. -/
def storeOpenEffect (st : BuildSt) : BuildSt :=
  { st with
    dirEntries := some (match st.dirEntries with | none => 1 | some n => max n 1) }

/-- Embeds BATCH_SIZE = 64. -/
def BATCH_SIZE : Nat := 64

/-- The successive slices dataset[idx : idx + BATCH_SIZE] taken by the
while-loop of build_db.main; structural recursion on a fuel argument that
the wrapper instantiates with the dataset length (each iteration consumes
at least one element, so that fuel always suffices). -/
def toBatchesAux (fuel : Nat) (l : List String) : List (List String) :=
  match fuel, l with
  | _, [] => []
  | 0, _ :: _ => []
  | fuel + 1, a :: rest =>
    ((a :: rest).take BATCH_SIZE) :: toBatchesAux fuel ((a :: rest).drop BATCH_SIZE)

/-- The batch slices of the while-loop of build_db.main. -/
def toBatches (l : List String) : List (List String) := toBatchesAux l.length l

/-- Embeds one iteration's embedding step of build_db.main (lines 127-131):
call embed_batch on the batch and raise RuntimeError when the number of
returned vectors differs from the number of texts in the batch. -/
def processBatch (provider : Option String → List String → EmbedResp)
    (model : Option String) (batch : List String) : Except PyExn (List Vec) :=
  match embed_batch (provider model) batch with
  | .error e => .error e
  | .ok embeddings =>
    if embeddings.length = batch.length then .ok embeddings else .error ()

/-- Embeds the batch while-loop of build_db.main: per batch, embed (and
check the count), then add the documents to the collection; a raise aborts
the loop with the store untouched by the failing batch. -/
def buildLoop (provider : Option String → List String → EmbedResp)
    (model : Option String) :
    List (List String) → BuildSt → BuildSt × List Act × Except PyExn Unit
  | [], st => (st, [], .ok ())
  | b :: rest, st =>
    match processBatch provider model b with
    | .error e => (st, [.embedCall model b.length], .error e)
    | .ok _ =>
      let st' : BuildSt := { st with docCount := st.docCount + b.length }
      match buildLoop provider model rest st' with
      | (st'', tr, r) => (st'', .embedCall model b.length :: .storeAdd b.length :: tr, r)

/-- Final outcome of a build run that did not raise. -/
inductive BuildOutcome where
  | skipped : BuildOutcome
  | built : BuildOutcome
deriving DecidableEq

/-- Embeds the body of build_db.main after the skip/rebuild gate: read and
chunk the dataset (the caller passes the chunked corpus), open the client
and collection, then run the batch loop. -/
def buildProceed (provider : Option String → List String → EmbedResp)
    (model : Option String) (dataset : List String)
    (st : BuildSt) : BuildSt × List Act × Except PyExn BuildOutcome :=
  let st1 := storeOpenEffect st
  match buildLoop provider model (toBatches dataset) st1 with
  | (st', tr, .error e) => (st', .readData :: .storeOpen :: tr, .error e)
  | (st', tr, .ok ()) => (st', .readData :: .storeOpen :: tr, .ok .built)

/-- Embeds build_db.main.  Inputs: the provider oracle, the process
environment (EMBEDDING_MODEL is read from it), the force flag, the lowered
interactive answer read when the location is already populated, the
tokenizer oracle and corpus content, and the starting state. -/
def buildMain (provider : Option String → List String → EmbedResp)
    (env : List (String × String)) (force : Bool) (choice : String)
    (tok : String → List String) (corpus : String) (st : BuildSt) :
    BuildSt × List Act × Except PyExn BuildOutcome :=
  let model := EMBEDDING_MODEL env
  if db_already_built st then
    if force then
      match buildProceed provider model (read_dataset tok corpus) { dirEntries := none, docCount := 0 } with
      | (st', tr, r) => (st', .rmtree :: tr, r)
    else
      let c := pyLower choice
      if c = "s" then (st, [], .ok .skipped)
      else if c = "r" then
        match buildProceed provider model (read_dataset tok corpus) { dirEntries := none, docCount := 0 } with
        | (st', tr, r) => (st', .rmtree :: tr, r)
      else (st, [], .ok .skipped)
  else buildProceed provider model (read_dataset tok corpus) st

/-! ## Helper lemmas -/

/-- Appending strings appends their character lists. -/
theorem str_data_append (s t : String) : (s ++ t).data = s.data ++ t.data := by
  cases s; cases t; rfl

/-- A list whose head fails the predicate is a fixed point of dropWhile. -/
theorem dropWhile_fix_of_head {α} (p : α → Bool) (l : List α)
    (hhead : ∀ c, l.head? = some c → p c = false) : List.dropWhile p l = l := by
  cases l with
  | nil => rfl
  | cons a t =>
    have ha := hhead a rfl
    simp [List.dropWhile_cons, ha]

/-- The head of a dropWhile result fails the predicate. -/
theorem head_of_dropWhile {α} (p : α → Bool) (l : List α) (c : α)
    (hc : (List.dropWhile p l).head? = some c) : p c = false := by
  induction l with
  | nil => cases hc
  | cons a t ih =>
    by_cases ha : p a
    · rw [List.dropWhile_cons, if_pos ha] at hc
      exact ih hc
    · rw [List.dropWhile_cons, if_neg ha] at hc
      cases hc
      simpa using ha

/-- Python strip is idempotent on character lists. -/
theorem stripChars_idem (l : List Char) : stripChars (stripChars l) = stripChars l := by
  unfold stripChars
  have key : List.dropWhile pyWs (List.rdropWhile pyWs (List.dropWhile pyWs l))
      = List.rdropWhile pyWs (List.dropWhile pyWs l) := by
    apply dropWhile_fix_of_head
    intro c hc
    obtain ⟨t, ht⟩ := List.rdropWhile_prefix pyWs (List.dropWhile pyWs l)
    apply head_of_dropWhile pyWs l c
    rw [← ht]
    rcases hA : List.rdropWhile pyWs (List.dropWhile pyWs l) with _ | ⟨a, r⟩
    · rw [hA] at hc; cases hc
    · rw [hA] at hc
      simpa using hc
  rw [key, List.rdropWhile_idempotent]

/-- Python strip is idempotent on strings. -/
theorem pyStrip_idem (s : String) : pyStrip (pyStrip s) = pyStrip s :=
  congrArg String.mk (stripChars_idem s.data)

/-- The filtering comprehension of read_dataset equals mapping strip and
then discarding the empty results. -/
theorem filterMap_strip (l : List String) :
    l.filterMap (fun s => if pyStrip s = "" then none else some (pyStrip s))
      = (l.map pyStrip).filter (fun t => t ≠ "") := by
  induction l with
  | nil => rfl
  | cons a t ih =>
    by_cases h : pyStrip a = "" <;>
      simp [List.filterMap_cons, List.filter_cons, h, ih]

/-! ## Claim theorems -/

/-- C1 counterexample: the claim says retrieve never propagates an
embedding failure and yields [] in that case; but when the provider call
raises (here: EmbedResp.raised), embed_query re-raises and retrieve
propagates the exception instead of returning the empty list. -/
theorem C1_counterexample :
    retrieve EmbedResp.raised (fun _ => ⟨[], [], []⟩) = Except.error ()
    ∧ retrieve EmbedResp.raised (fun _ => ⟨[], [], []⟩) ≠ Except.ok [] :=
  ⟨rfl, fun h => Except.noConfusion h⟩

/-- C1 (amended): retrieve degrades to the empty list exactly when the
embedding step returns no vector (embed_query yields None, the dict "data"
shape whose first record lacks an "embedding" key); when embedding raises
— a provider exception or an unrecognized response shape — the exception
propagates out of retrieve to its caller. -/
theorem C1_retrieve_graceful_only_on_none (er : EmbedResp)
    (store : Vec → QueryResults) :
    (embed_query er = .ok none → retrieve er store = .ok [])
    ∧ (embed_query er = .error () → retrieve er store = .error ()) := by
  constructor <;> intro h <;> simp [retrieve, h]

/-- C1 witness: a concrete response of the "data"-with-missing-"embedding"
shape makes embed_query yield None and retrieve return []. -/
theorem C1_witness :
    embed_query (EmbedResp.dict none none (some [none])) = .ok none
    ∧ retrieve (EmbedResp.dict none none (some [none])) (fun _ => ⟨[], [], []⟩) = .ok [] :=
  ⟨rfl, (C1_retrieve_graceful_only_on_none _ _).1 rfl⟩

/-- C4: every retrieved item that carries a raw distance d has similarity
1 - d clamped to the interval from -1 to 1, and the conversion sends
distance 0 to similarity 1, distance 1 to 0, and distance 2 to -1. -/
theorem C4_similarity_conversion (res : QueryResults) (item : RetrievedItem)
    (hmem : item ∈ assembleRetrieved res) (d : ℚ) (hd : item.distance = some d) :
    item.similarity = some (max (-1) (min 1 (1 - d)))
    ∧ simOfDist 0 = 1 ∧ simOfDist 1 = 0 ∧ simOfDist 2 = -1 := by
  refine ⟨?_, by norm_num [simOfDist], by norm_num [simOfDist], by norm_num [simOfDist]⟩
  unfold assembleRetrieved at hmem
  rcases hres : res.documents with _ | ⟨d0, rest⟩ <;> rw [hres] at hmem
  · simp at hmem
  · simp only [List.mem_map] at hmem
    obtain ⟨i, _, hitem⟩ := hmem
    subst hitem
    have hd2 : rowGet res.distances i = some d := hd
    show (rowGet res.distances i).map simOfDist = some (max (-1) (min 1 (1 - d)))
    rw [hd2]
    rfl

/-- C4 witness: a store row with raw distance 2 yields a retrieved item
whose similarity is the clamped value -1. -/
theorem C4_witness :
    (⟨"c", some 2, some (simOfDist 2), []⟩ : RetrievedItem)
      ∈ assembleRetrieved ⟨[["c"]], [[2]], [[]]⟩
    ∧ (⟨"c", some 2, some (simOfDist 2), []⟩ : RetrievedItem).similarity
      = some (max (-1) (min 1 (1 - 2))) := by
  have hmem : (⟨"c", some 2, some (simOfDist 2), []⟩ : RetrievedItem)
      ∈ assembleRetrieved ⟨[["c"]], [[2]], [[]]⟩ := List.mem_singleton.mpr rfl
  exact ⟨hmem, (C4_similarity_conversion ⟨[["c"]], [[2]], [[]]⟩ _ hmem 2 rfl).1⟩

/-- C5: chunking yields only non-empty, strip-fixed units; the chunk
sequence is a sublist (hence in input order) of the stripped sentence
sequence, so whitespace-only sentences are discarded without occupying a
position; and when the tokenizer maps empty input to no sentences,
read_dataset of empty input is the empty sequence. -/
theorem C5_chunking (tok : String → List String) (content : String) :
    (∀ u ∈ read_dataset tok content, u ≠ "" ∧ pyStrip u = u)
    ∧ List.Sublist (read_dataset tok content) ((tok content).map pyStrip)
    ∧ (tok "" = [] → read_dataset tok "" = []) := by
  refine ⟨?_, ?_, ?_⟩
  · intro u hu
    unfold read_dataset at hu
    rw [filterMap_strip, List.mem_filter] at hu
    obtain ⟨hmap, hne⟩ := hu
    obtain ⟨s, _, rfl⟩ := List.mem_map.mp hmap
    exact ⟨by simpa using hne, pyStrip_idem s⟩
  · unfold read_dataset
    rw [filterMap_strip]
    exact List.filter_sublist _
  · intro h
    unfold read_dataset
    rw [h]
    rfl

/-- C5 witness: a concrete tokenizer output with surrounding whitespace and
a whitespace-only sentence. -/
theorem C5_witness :
    "A cat." ∈ read_dataset (fun s => if s = "" then [] else ["  A cat.  ", "   ", "Dogs."]) "x"
    ∧ ("A cat." ≠ "" ∧ pyStrip "A cat." = "A cat.")
    ∧ read_dataset (fun s => if s = "" then [] else ["  A cat.  ", "   ", "Dogs."]) "" = [] := by
  refine ⟨by decide, ?_, ?_⟩
  · exact (C5_chunking (fun s => if s = "" then [] else ["  A cat.  ", "   ", "Dogs."]) "x").1
      "A cat." (by decide)
  · exact (C5_chunking (fun s => if s = "" then [] else ["  A cat.  ", "   ", "Dogs."]) "").2.2
      (by decide)

/-- C10: for every item assembled by retrieve, similarity is the clamped
conversion of the distance exactly when the store supplied one, and None
when the distance is None; items with a missing distance are still
included — the result length equals the length of the store's first
documents row, and with no distances row at all every item carries
distance None and similarity None. -/
theorem C10_retrieved_item_invariant (res : QueryResults) :
    (∀ item ∈ assembleRetrieved res,
      (∀ d, item.distance = some d → item.similarity = some (simOfDist d))
      ∧ (item.distance = none → item.similarity = none))
    ∧ (∀ d0 rest, res.documents = d0 :: rest →
        (assembleRetrieved res).length = d0.length)
    ∧ (res.distances = [] → ∀ item ∈ assembleRetrieved res,
        item.distance = none ∧ item.similarity = none) := by
  refine ⟨?_, ?_, ?_⟩
  · intro item hmem
    unfold assembleRetrieved at hmem
    rcases hres : res.documents with _ | ⟨d0, rest⟩ <;> rw [hres] at hmem
    · simp at hmem
    · simp only [List.mem_map] at hmem
      obtain ⟨i, _, hitem⟩ := hmem
      subst hitem
      constructor
      · intro d hd
        have hd2 : rowGet res.distances i = some d := hd
        show (rowGet res.distances i).map simOfDist = some (simOfDist d)
        rw [hd2]
        rfl
      · intro hd
        have hd2 : rowGet res.distances i = none := hd
        show (rowGet res.distances i).map simOfDist = none
        rw [hd2]
        rfl
  · intro d0 rest hres
    unfold assembleRetrieved
    rw [hres]
    simp
  · intro hdist item hmem
    unfold assembleRetrieved at hmem
    rcases hres : res.documents with _ | ⟨d0, rest⟩ <;> rw [hres] at hmem
    · simp at hmem
    · simp only [List.mem_map] at hmem
      obtain ⟨i, _, hitem⟩ := hmem
      subst hitem
      refine ⟨?_, ?_⟩
      · show rowGet res.distances i = none
        rw [hdist]
        rfl
      · show (rowGet res.distances i).map simOfDist = none
        rw [hdist]
        rfl

/-- C10 witness: a store response with two documents and no distances row
still yields two items, each with distance and similarity None. -/
theorem C10_witness :
    (assembleRetrieved ⟨[["a", "b"]], [], [[]]⟩).length = 2
    ∧ ∀ item ∈ assembleRetrieved ⟨[["a", "b"]], [], [[]]⟩,
        item.distance = none ∧ item.similarity = none := by
  refine ⟨?_, ?_⟩
  · rw [(C10_retrieved_item_invariant ⟨[["a", "b"]], [], [[]]⟩).2.1 ["a", "b"] [] rfl]
    rfl
  · exact (C10_retrieved_item_invariant ⟨[["a", "b"]], [], [[]]⟩).2.2 rfl


/-- The batch loop always records the embedding call for the first batch,
whether it succeeds or raises. -/
theorem buildLoop_first_embed (provider : Option String → List String → EmbedResp)
    (model : Option String) (b : List String) (rest : List (List String))
    (st : BuildSt) :
    Act.embedCall model b.length ∈ (buildLoop provider model (b :: rest) st).2.1 := by
  rcases h : processBatch provider model b with e | es
  · simp [buildLoop, h]
  · rcases hl : buildLoop provider model rest { st with docCount := st.docCount + b.length }
      with ⟨st2, tr, r⟩
    simp [buildLoop, h, hl]

/-- A non-empty dataset makes the proceed path call the embedding provider
on the first batch, the leading BATCH_SIZE slice of the dataset. -/
theorem buildProceed_embeds (provider : Option String → List String → EmbedResp)
    (model : Option String) (dataset : List String) (st : BuildSt)
    (hds : dataset ≠ []) :
    Act.embedCall model (dataset.take BATCH_SIZE).length
      ∈ (buildProceed provider model dataset st).2.1 := by
  rcases hd : dataset with _ | ⟨a, tl⟩
  · exact absurd hd hds
  · have htb : toBatches (a :: tl)
        = ((a :: tl).take BATCH_SIZE) :: toBatchesAux tl.length ((a :: tl).drop BATCH_SIZE) := rfl
    unfold buildProceed
    dsimp only
    rw [htb]
    have hmem := buildLoop_first_embed provider model ((a :: tl).take BATCH_SIZE)
      (toBatchesAux tl.length ((a :: tl).drop BATCH_SIZE)) (storeOpenEffect st)
    rcases hl : buildLoop provider model
        (((a :: tl).take BATCH_SIZE) :: toBatchesAux tl.length ((a :: tl).drop BATCH_SIZE))
        (storeOpenEffect st) with ⟨st2, tr, r⟩
    rw [hl] at hmem
    rcases r with e | o <;> simpa using hmem

/-- C2 counterexample: with an environment lacking EMBEDDING_MODEL, the
build does not fail with a configuration error before the pipeline runs; it
reads None for the model, proceeds, attempts the embedding pipeline call
with that missing identifier, and only then fails with the downstream
embedding error. -/
theorem C2_counterexample :
    EMBEDDING_MODEL [] = none
    ∧ Act.embedCall none 1
        ∈ (buildMain (fun _ _ => EmbedResp.raised) [] false ""
            (fun _ => ["doc"]) "doc" ⟨none, 0⟩).2.1
    ∧ (buildMain (fun _ _ => EmbedResp.raised) [] false ""
        (fun _ => ["doc"]) "doc" ⟨none, 0⟩).2.2 = .error () :=
  ⟨rfl, by decide, rfl⟩

/-- C2 (amended): absence of the embedding-model setting is never checked:
os.getenv simply yields None, no configuration error exists in the
program, and for any environment the build (when it proceeds on a
non-empty dataset) reaches the embedding pipeline call carrying whatever
os.getenv returned — so a missing setting surfaces only as a downstream
embedding failure. -/
theorem C2_no_config_validation (env : List (String × String))
    (provider : Option String → List String → EmbedResp)
    (tok : String → List String) (corpus : String) (st : BuildSt)
    (hnb : db_already_built st = false)
    (hds : read_dataset tok corpus ≠ []) :
    Act.embedCall (EMBEDDING_MODEL env)
        ((read_dataset tok corpus).take BATCH_SIZE).length
      ∈ (buildMain provider env false "" tok corpus st).2.1 := by
  simp only [buildMain, hnb, Bool.false_eq_true, if_false]
  exact buildProceed_embeds provider (EMBEDDING_MODEL env) (read_dataset tok corpus) st hds

/-- C2 witness: the empty environment at a fresh state with a one-sentence
corpus. -/
theorem C2_witness :
    db_already_built ⟨none, 0⟩ = false
    ∧ read_dataset (fun _ => ["doc"]) "doc" ≠ []
    ∧ Act.embedCall (EMBEDDING_MODEL [])
        ((read_dataset (fun _ => ["doc"]) "doc").take BATCH_SIZE).length
        ∈ (buildMain (fun _ _ => EmbedResp.raised) [] false ""
            (fun _ => ["doc"]) "doc" ⟨none, 0⟩).2.1 :=
  ⟨rfl, by decide,
    C2_no_config_validation [] (fun _ _ => EmbedResp.raised)
      (fun _ => ["doc"]) "doc" ⟨none, 0⟩ rfl (by decide)⟩

/-- C3 counterexample: a provider response of a recognized shape (the dict
"embeddings" key) carrying one vector for a batch of two texts makes
embed_batch return the short list — one vector, no raise; the
count-mismatch check is not part of embed_batch. -/
theorem C3_counterexample :
    embed_batch (fun _ => EmbedResp.dict none (some [[1]]) none) ["a", "b"]
      = Except.ok [[1]]
    ∧ ([[(1 : ℚ)]]).length ≠ (["a", "b"]).length :=
  ⟨rfl, by decide⟩

/-- C3 (amended): embed_batch itself returns however many vectors the
recognized response shape carried; the count invariant is enforced by the
index builder right after the call (build_db.main lines 127-131), which
raises instead of storing a short list — so whenever the builder step
succeeds, it yields exactly one vector per input text. -/
theorem C3_count_checked_by_builder
    (provider : Option String → List String → EmbedResp)
    (model : Option String) (batch : List String) :
    (∀ es, processBatch provider model batch = .ok es → es.length = batch.length)
    ∧ (∀ es, embed_batch (provider model) batch = .ok es →
        es.length ≠ batch.length → processBatch provider model batch = .error ()) := by
  constructor
  · intro es h
    unfold processBatch at h
    rcases heb : embed_batch (provider model) batch with e | es2
    · rw [heb] at h
      cases h
    · rw [heb] at h
      have h2 : (if es2.length = batch.length then Except.ok es2
          else Except.error ()) = Except.ok (ε := PyExn) es := h
      by_cases hlen : es2.length = batch.length
      · rw [if_pos hlen] at h2
        injection h2 with h3
        rw [← h3]
        exact hlen
      · rw [if_neg hlen] at h2
        cases h2
  · intro es heb hne
    unfold processBatch
    rw [heb]
    show (if es.length = batch.length then Except.ok es else Except.error ()) = Except.error ()
    rw [if_neg hne]

/-- C3 witness: with two input texts, a short (one-vector) recognized
response makes the builder step raise, and a correct two-vector response
passes the builder step with exactly two vectors. -/
theorem C3_witness :
    embed_batch ((fun (_ : Option String) (_ : List String) => EmbedResp.dict none (some [[1]]) none) none) ["a", "b"]
      = .ok [[1]]
    ∧ ([[(1 : ℚ)]]).length ≠ (["a", "b"]).length
    ∧ processBatch (fun _ _ => EmbedResp.dict none (some [[1]]) none) none ["a", "b"]
        = .error ()
    ∧ ([[(1 : ℚ)], [2]]).length = (["a", "b"]).length := by
  refine ⟨rfl, by decide, ?_, ?_⟩
  · exact (C3_count_checked_by_builder (fun _ _ => EmbedResp.dict none (some [[1]]) none)
      none ["a", "b"]).2 [[1]] rfl (by decide)
  · exact (C3_count_checked_by_builder (fun _ _ => EmbedResp.dict none (some [[1], [2]]) none)
      none ["a", "b"]).1 [[1], [2]] rfl


/-- The batch loop never touches the directory-entry count (only the
external client creation does). -/
theorem buildLoop_dirEntries (provider : Option String → List String → EmbedResp)
    (model : Option String) (bs : List (List String)) (st : BuildSt) :
    (buildLoop provider model bs st).1.dirEntries = st.dirEntries := by
  induction bs generalizing st with
  | nil => rfl
  | cons b rest ih =>
    rcases h : processBatch provider model b with e | es
    · simp [buildLoop, h]
    · rcases hl : buildLoop provider model rest
          { st with docCount := st.docCount + b.length } with ⟨st2, tr, r⟩
      have hih := ih { st with docCount := st.docCount + b.length }
      rw [hl] at hih
      simp [buildLoop, h, hl]
      exact hih

/-- Any run of the proceed path — aborted or completed — leaves the
persistent location non-empty (the client opening creates it). -/
theorem buildProceed_leaves_built (provider : Option String → List String → EmbedResp)
    (model : Option String) (dataset : List String) (st : BuildSt) :
    db_already_built (buildProceed provider model dataset st).1 = true := by
  unfold buildProceed
  dsimp only
  rcases hl : buildLoop provider model (toBatches dataset) (storeOpenEffect st)
    with ⟨st2, tr, r⟩
  have hd := buildLoop_dirEntries provider model (toBatches dataset) (storeOpenEffect st)
  rw [hl] at hd
  have hb : db_already_built st2 = true := by
    unfold db_already_built
    rw [hd]
    unfold storeOpenEffect
    rcases st.dirEntries with _ | n <;> simp
  rcases r with e | o
  · simpa using hb
  · simpa using hb

/-- C6: with a populated location and no force flag, every interactive
answer other than rebuild — skip, the unimplemented new-files-only option,
or anything invalid — returns immediately: the state (hence the document
count) is unchanged and no external action (no embedding, no store write)
is performed; and every run that completes a build leaves the location
populated, so a second run without force and without a rebuild answer is a
no-op. -/
theorem C6_skip_noop_idempotent :
    (∀ (provider : Option String → List String → EmbedResp)
        (env : List (String × String)) (choice : String)
        (tok : String → List String) (corpus : String) (st : BuildSt),
      db_already_built st = true → pyLower choice ≠ "r" →
      buildMain provider env false choice tok corpus st = (st, [], .ok .skipped))
    ∧ (∀ (provider : Option String → List String → EmbedResp)
        (env : List (String × String)) (force : Bool) (choice : String)
        (tok : String → List String) (corpus : String) (st : BuildSt),
      (buildMain provider env force choice tok corpus st).2.2 = .ok .built →
      db_already_built (buildMain provider env force choice tok corpus st).1 = true) := by
  constructor
  · intro provider env choice tok corpus st hb hr
    by_cases hs : pyLower choice = "s"
    · simp [buildMain, hb, hs]
    · simp [buildMain, hb, hs, hr]
  · intro provider env force choice tok corpus st h
    by_cases hb : db_already_built st = true
    · by_cases hf : force = true
      · rcases hp : buildProceed provider (EMBEDDING_MODEL env) (read_dataset tok corpus)
            { dirEntries := none, docCount := 0 } with ⟨st2, tr, r⟩
        have hbp := buildProceed_leaves_built provider (EMBEDDING_MODEL env)
          (read_dataset tok corpus) { dirEntries := none, docCount := 0 }
        rw [hp] at hbp
        simp [buildMain, hb, hf, hp]
        exact hbp
      · by_cases hs : pyLower choice = "s"
        · simp [buildMain, hb, hf, hs] at h
        · by_cases hrr : pyLower choice = "r"
          · rcases hp : buildProceed provider (EMBEDDING_MODEL env) (read_dataset tok corpus)
                { dirEntries := none, docCount := 0 } with ⟨st2, tr, r⟩
            have hbp := buildProceed_leaves_built provider (EMBEDDING_MODEL env)
              (read_dataset tok corpus) { dirEntries := none, docCount := 0 }
            rw [hp] at hbp
            simp [buildMain, hb, hf, hs, hrr, hp]
            exact hbp
          · simp [buildMain, hb, hf, hs, hrr] at h
    · have hbp := buildProceed_leaves_built provider (EMBEDDING_MODEL env)
        (read_dataset tok corpus) st
      simp [buildMain, hb]
      exact hbp

/-- C6 witness: answering "n" (the unimplemented new-files-only option) on
a populated location is an exact no-op, and a completed fresh build leaves
the location populated. -/
theorem C6_witness :
    db_already_built ⟨some 3, 7⟩ = true
    ∧ pyLower "n" ≠ "r"
    ∧ buildMain (fun _ _ => EmbedResp.raised) [] false "n" (fun _ => ["doc"]) "doc" ⟨some 3, 7⟩
        = (⟨some 3, 7⟩, [], .ok .skipped)
    ∧ (buildMain (fun _ _ => EmbedResp.dict none (some [[1]]) none) [] false ""
        (fun _ => ["doc"]) "doc" ⟨none, 0⟩).2.2 = .ok .built
    ∧ db_already_built (buildMain (fun _ _ => EmbedResp.dict none (some [[1]]) none) [] false ""
        (fun _ => ["doc"]) "doc" ⟨none, 0⟩).1 = true := by
  refine ⟨rfl, by decide, ?_, rfl, ?_⟩
  · exact C6_skip_noop_idempotent.1 (fun _ _ => EmbedResp.raised) [] "n"
      (fun _ => ["doc"]) "doc" ⟨some 3, 7⟩ rfl (by decide)
  · exact C6_skip_noop_idempotent.2 (fun _ _ => EmbedResp.dict none (some [[1]]) none) []
      false "" (fun _ => ["doc"]) "doc" ⟨none, 0⟩ rfl


/-- C7: whenever retrieval comes back empty (for instance against an empty
collection) and the query was non-empty, the query entry point performs no
instruction building and no generative chat call, prints the fixed
sentinel directly, and finishes without error. -/
theorem C7_empty_retrieval_short_circuit (rawQuery : String) (er : EmbedResp)
    (store : Vec → QueryResults) (chatRes : Except PyExn Unit)
    (hq : pyStrip rawQuery ≠ "")
    (hretr : retrieve er store = .ok []) :
    Act.buildPromptCall ∉ (queryMain true rawQuery er store chatRes).1
    ∧ Act.chatCall ∉ (queryMain true rawQuery er store chatRes).1
    ∧ dontKnowSentinel ∈ (queryMain true rawQuery er store chatRes).2.1
    ∧ (queryMain true rawQuery er store chatRes).2.2 = .ok () := by
  simp only [queryMain, Bool.not_true, Bool.false_eq_true, if_false, hq, if_neg, hretr]
  rcases embed_query er with e | ov
  · simp
  · rcases ov with _ | v <;> simp

/-- C7 witness: a None-yielding embedding against an empty store. -/
theorem C7_witness :
    pyStrip "q" ≠ ""
    ∧ retrieve (EmbedResp.dict none none (some [none])) (fun _ => ⟨[], [], []⟩) = .ok []
    ∧ dontKnowSentinel ∈ (queryMain true "q" (EmbedResp.dict none none (some [none]))
        (fun _ => ⟨[], [], []⟩) (.ok ())).2.1
    ∧ Act.chatCall ∉ (queryMain true "q" (EmbedResp.dict none none (some [none]))
        (fun _ => ⟨[], [], []⟩) (.ok ())).1 := by
  have h := C7_empty_retrieval_short_circuit "q" (EmbedResp.dict none none (some [none]))
    (fun _ => ⟨[], [], []⟩) (.ok ()) (by decide) rfl
  exact ⟨by decide, rfl, h.2.2.1, h.2.1⟩

/-- C9 counterexample: the claim says an empty (after trimming) query
exits without any external-service call, collection creation included; but
the client is opened and the collection fetched/created before the
question is even read, so the run with the whitespace-only query has
already performed the collection call. -/
theorem C9_counterexample :
    pyStrip "   " = ""
    ∧ Act.getOrCreateCollection
        ∈ (queryMain true "   " EmbedResp.raised (fun _ => ⟨[], [], []⟩) (.ok ())).1 :=
  ⟨rfl, by decide⟩

/-- C9 (amended): an empty trimmed query makes the run exit right after
the prompt with no embedding call, no store query, and no generation
call; but the store client opening, the collection listing and the
get-or-create collection call have already happened, because
ensure_client_and_collection runs before the question is read. -/
theorem C9_empty_query_exits_after_collection_setup (rawQuery : String)
    (er : EmbedResp) (store : Vec → QueryResults) (chatRes : Except PyExn Unit)
    (hq : pyStrip rawQuery = "") :
    (queryMain true rawQuery er store chatRes).1
        = [.storeOpen, .listCollections, .getOrCreateCollection]
    ∧ (queryMain true rawQuery er store chatRes).2.1 = ["Empty query, exiting."]
    ∧ (queryMain true rawQuery er store chatRes).2.2 = .ok ()
    ∧ Act.embedQueryCall ∉ (queryMain true rawQuery er store chatRes).1
    ∧ Act.storeQuery ∉ (queryMain true rawQuery er store chatRes).1
    ∧ Act.chatCall ∉ (queryMain true rawQuery er store chatRes).1 := by
  have h1 : (queryMain true rawQuery er store chatRes)
      = ([.storeOpen, .listCollections, .getOrCreateCollection],
         ["Empty query, exiting."], .ok ()) := by
    simp [queryMain, hq]
  rw [h1]
  refine ⟨rfl, rfl, rfl, by decide, by decide, by decide⟩

/-- C9 witness: the whitespace-only query. -/
theorem C9_witness :
    pyStrip "   " = ""
    ∧ (queryMain true "   " EmbedResp.raised (fun _ => ⟨[], [], []⟩) (.ok ())).1
        = [.storeOpen, .listCollections, .getOrCreateCollection]
    ∧ Act.chatCall ∉ (queryMain true "   " EmbedResp.raised (fun _ => ⟨[], [], []⟩) (.ok ())).1 := by
  have h := C9_empty_query_exits_after_collection_setup "   " EmbedResp.raised
    (fun _ => ⟨[], [], []⟩) (.ok ()) rfl
  exact ⟨rfl, h.1, h.2.2.2.2.2⟩


/-- Splitting a newline-free character list yields that single line. -/
theorem splitCh_of_no_nl (l : List Char) (h : '\n' ∉ l) : splitCh l = [l] := by
  induction l with
  | nil => rfl
  | cons c rest ih =>
    have hc : c ≠ '\n' := fun hcn => h (hcn ▸ List.mem_cons_self c rest)
    have hrest : '\n' ∉ rest := fun hr => h (List.mem_cons_of_mem c hr)
    rw [splitCh, if_neg hc, ih hrest]

/-- Splitting after a newline-free line and an explicit newline peels off
exactly that line. -/
theorem splitCh_break (l s : List Char) (h : '\n' ∉ l) :
    splitCh (l ++ '\n' :: s) = l :: splitCh s := by
  induction l with
  | nil => rw [List.nil_append, splitCh, if_pos rfl]
  | cons c t ih =>
    have hc : c ≠ '\n' := fun hcn => h (hcn ▸ List.mem_cons_self c t)
    have ht : '\n' ∉ t := fun hr => h (List.mem_cons_of_mem c hr)
    rw [List.cons_append, splitCh, if_neg hc, ih ht]

/-- Joining distributes over list concatenation with an interposed
newline. -/
theorem joinCh_append_cons : ∀ xs ys : List (List Char), xs ≠ [] → ys ≠ [] →
    joinCh (xs ++ ys) = joinCh xs ++ '\n' :: joinCh ys
  | [], _, hx, _ => absurd rfl hx
  | _ :: _, [], _, hy => absurd rfl hy
  | [l], y :: ys2, _, _ => by simp [joinCh]
  | l :: l2 :: t, y :: ys2, _, _ => by
    have ih := joinCh_append_cons (l2 :: t) (y :: ys2) (by simp) (by simp)
    show l ++ '\n' :: joinCh (l2 :: (t ++ (y :: ys2)))
        = (l ++ '\n' :: joinCh (l2 :: t)) ++ '\n' :: joinCh (y :: ys2)
    rw [show l2 :: (t ++ (y :: ys2)) = (l2 :: t) ++ (y :: ys2) from rfl, ih]
    simp [List.append_assoc]

/-- splitCh is a left inverse of joinCh on non-empty lists of newline-free
lines. -/
theorem splitCh_joinCh : ∀ ls : List (List Char), ls ≠ [] →
    (∀ l ∈ ls, '\n' ∉ l) → splitCh (joinCh ls) = ls
  | [], h, _ => absurd rfl h
  | [l], _, hnl => by
    rw [joinCh, splitCh_of_no_nl l (hnl l (by simp))]
  | l :: l2 :: t, _, hnl => by
    have ih := splitCh_joinCh (l2 :: t) (by simp)
      (fun x hx => hnl x (List.mem_cons_of_mem l hx))
    rw [joinCh, splitCh_break l (joinCh (l2 :: t)) (hnl l (by simp)), ih]

/-- No header line of the prompt contains a newline. -/
theorem header_no_nl : ∀ l ∈ headerLinesData, '\n' ∉ l := by decide

/-- The character list of a bulleted line. -/
theorem bulletLine_data (c : String) :
    (bulletLine c).data = ' ' :: '-' :: ' ' :: c.data := by
  show (" - " ++ c).data = _
  rw [str_data_append]
  rfl

/-- Bulleted lines start with a space, which no header line does. -/
theorem bullet_notin_hdr (c : String) : (bulletLine c).data ∉ headerLinesData := by
  intro hmem
  have hh : ∀ l ∈ headerLinesData, l.head? ≠ some ' ' := by decide
  apply hh _ hmem
  rw [bulletLine_data]
  rfl

/-- Distinct chunks produce distinct bulleted lines. -/
theorem bullet_inj : Function.Injective (fun c : String => (bulletLine c).data) := by
  intro a b hab
  simp only [bulletLine_data, List.cons.injEq, true_and] at hab
  cases a
  cases b
  exact congrArg String.mk hab

/-- Counting a bulleted line among bulleted lines counts the chunk. -/
theorem count_map_bullet (l : List String) (c : String) :
    (l.map (fun s => (bulletLine s).data)).count ((bulletLine c).data) = l.count c := by
  induction l with
  | nil => rfl
  | cons a t ih =>
    simp only [List.map_cons, List.count_cons, ih]
    by_cases h : a = c
    · subst h
      simp
    · have hne : (bulletLine a).data ≠ (bulletLine c).data := fun hh => h (bullet_inj hh)
      rw [beq_eq_false_iff_ne.mpr hne, beq_eq_false_iff_ne.mpr h]

set_option maxRecDepth 16384 in
/-- The character list of the assembled prompt is the newline join of the
header lines, the bulleted context lines, and a final empty line. -/
theorem prompt_data_eq (retrieved : List RetrievedItem) (hne : retrieved ≠ []) :
    (build_instruction_prompt retrieved).data
      = joinCh (headerLinesData
          ++ retrieved.map (fun it => (bulletLine it.chunk).data) ++ [[]]) := by
  have hbul : retrieved.map (fun it => (bulletLine it.chunk).data) ≠ [] := by
    simpa using hne
  have hhdr : promptHeader.data = joinCh headerLinesData ++ ['\n'] := by decide
  have hctx : (context_lines retrieved).data
      = joinCh (retrieved.map (fun it => (bulletLine it.chunk).data)) := rfl
  rw [build_instruction_prompt, str_data_append, str_data_append, hctx, hhdr]
  rw [List.append_assoc headerLinesData]
  rw [joinCh_append_cons headerLinesData _ (by decide) (by simp)]
  rw [joinCh_append_cons _ [[]] hbul (by simp)]
  show (joinCh headerLinesData ++ ['\n']) ++ joinCh (retrieved.map (fun it => (bulletLine it.chunk).data)) ++ ("\n").data
      = joinCh headerLinesData ++ '\n' :: (joinCh (retrieved.map (fun it => (bulletLine it.chunk).data)) ++ '\n' :: joinCh [[]])
  rw [show joinCh [[]] = ([] : List Char) from rfl, show ("\n").data = ['\n'] from rfl]
  simp [List.append_assoc]

set_option maxRecDepth 16384 in
/-- C8: for a non-empty retrieved sequence of newline-free chunks, the
assembled instruction splits into exactly the fixed header lines — which
state: answer only from the given context, reply with the fixed sentinel
when the context is insufficient, and do not fabricate — followed by one
bulleted line per retrieved chunk in retrieval order and a final empty
line; each chunk's bullet occurs exactly as often as the chunk itself
occurs among the retrieved chunks (once, when chunks are distinct); and
the sentinel sentence occurs verbatim in the prompt. -/
theorem C8_prompt_structure (retrieved : List RetrievedItem)
    (hne : retrieved ≠ [])
    (hnl : ∀ it ∈ retrieved, '\n' ∉ it.chunk.data) :
    splitCh (build_instruction_prompt retrieved).data
      = headerLinesData ++ retrieved.map (fun it => (bulletLine it.chunk).data) ++ [[]]
    ∧ (∀ it ∈ retrieved,
        (splitCh (build_instruction_prompt retrieved).data).count
            ((bulletLine it.chunk).data)
          = (retrieved.map (fun x => x.chunk)).count it.chunk)
    ∧ dontKnowSentinel.data <:+: (build_instruction_prompt retrieved).data := by
  have hsplit : splitCh (build_instruction_prompt retrieved).data
      = headerLinesData ++ retrieved.map (fun it => (bulletLine it.chunk).data) ++ [[]] := by
    rw [prompt_data_eq retrieved hne]
    apply splitCh_joinCh
    · simp
    · intro l hl
      rcases List.mem_append.mp hl with hl2 | hl2
      · rcases List.mem_append.mp hl2 with hl3 | hl3
        · exact header_no_nl l hl3
        · obtain ⟨it, hit, rfl⟩ := List.mem_map.mp hl3
          rw [bulletLine_data]
          intro hmm
          simp only [List.mem_cons] at hmm
          rcases hmm with h1 | h1 | h1 | h1
          · exact absurd h1 (by decide)
          · exact absurd h1 (by decide)
          · exact absurd h1 (by decide)
          · exact hnl it hit h1
      · simp only [List.mem_singleton] at hl2
        subst hl2
        simp
  refine ⟨hsplit, ?_, ?_⟩
  · intro it hit
    rw [hsplit, List.count_append, List.count_append]
    have h0 : headerLinesData.count ((bulletLine it.chunk).data) = 0 :=
      List.count_eq_zero.mpr (bullet_notin_hdr it.chunk)
    have h1 : ([[]] : List (List Char)).count ((bulletLine it.chunk).data) = 0 := by
      apply List.count_eq_zero.mpr
      rw [bulletLine_data]
      simp
    have h2 : retrieved.map (fun x => (bulletLine x.chunk).data)
        = (retrieved.map (fun x => x.chunk)).map (fun c => (bulletLine c).data) := by
      rw [List.map_map]
      rfl
    rw [h0, h1, h2]
    simpa using count_map_bullet (retrieved.map (fun x => x.chunk)) it.chunk
  · have hsent : promptHeader.data
        = ("You are a helpful chatbot.\nUse ONLY the following pieces of context to answer the question.\nIf the context does not contain the answer, reply with: \"").data
          ++ dontKnowSentinel.data
          ++ ("\"\nDo NOT fabricate facts. You may summarize, combine pieces, or explain—but not invent.\n\nRetrieved Context:\n").data := by
      decide
    rw [build_instruction_prompt, str_data_append, str_data_append, hsent]
    refine ⟨("You are a helpful chatbot.\nUse ONLY the following pieces of context to answer the question.\nIf the context does not contain the answer, reply with: \"").data,
      ("\"\nDo NOT fabricate facts. You may summarize, combine pieces, or explain—but not invent.\n\nRetrieved Context:\n").data
        ++ ((context_lines retrieved).data ++ ("\n").data), ?_⟩
    simp [List.append_assoc]

set_option maxRecDepth 16384 in
/-- C8 witness: a single retrieved chunk. -/
theorem C8_witness :
    ([⟨"Cats sleep.", none, none, []⟩] : List RetrievedItem) ≠ []
    ∧ (∀ it ∈ ([⟨"Cats sleep.", none, none, []⟩] : List RetrievedItem),
        '\n' ∉ it.chunk.data)
    ∧ splitCh (build_instruction_prompt [⟨"Cats sleep.", none, none, []⟩]).data
        = headerLinesData ++ [(" - Cats sleep.").data] ++ [[]] := by
  refine ⟨by decide, by decide, ?_⟩
  have h := (C8_prompt_structure [⟨"Cats sleep.", none, none, []⟩]
    (by decide) (by decide)).1
  rw [h]
  have hmap : ([⟨"Cats sleep.", none, none, []⟩] : List RetrievedItem).map
      (fun it => (bulletLine it.chunk).data) = [(" - Cats sleep.").data] := by decide
  rw [hmap]

end RAGCraft
